import Mathlib

/-!
Verification of the roktrack swarm-coordination core: the BLE advertisement
codec (`Neighbor.from_manufacture_data`, `BleBroadCastInner.cast`), the
discovery-worker filtering and MAC normalization (`BleBroadCast.listen`),
the message vocabularies (`ChildMsg`, `ParentMsg`), and the MonitorPerson
pilot behavior (`MonitorPerson.handle`, `assess_system_risk`).

Machine bytes (`u8`) are embedded as `Nat`; a slice `&[u8]` is a
`List Nat` whose elements are below 256 (stated as a hypothesis where it
matters). A Rust function that can panic (out-of-bounds slice index) is
embedded with result type `Option _`, `none` standing for the panic.
Clock reads (`chrono::Utc::now()`) become explicit parameters.
-/

/-- Modelled from the spec: `Modes` is an external enumerated behavior
selector ("referenced, not defined, here" — its definition is not part of
this core); `from_u8` is its total decoding from a payload byte, carried
opaquely. -/
structure Modes where
  code : Nat
deriving DecidableEq, Repr

def Modes.from_u8 (i : Nat) : Modes := ⟨i⟩

/-- Neighbor state record (src/module/com.rs, `struct Neighbor`). -/
structure Neighbor where
  timestamp : String
  rssi : Int
  mac : String
  manufacturer_id : Nat
  identifier : Nat
  state : Bool
  rest : Nat
  pi_temp : Nat
  mode : Modes
  msg : Nat
  dest : Nat
deriving DecidableEq, Repr

/-- `Neighbor::from_manufacture_data` (com.rs lines 194-222). Indexes
`data[3]`..`data[8]` unconditionally; `none` models the Rust panic on an
out-of-bounds index. The `BitReader` over `[data[4]]` reads the top bit
(state) then the low seven bits (rest), MSB first. `now` is the
`chrono::Utc::now().timestamp()` value read inside the function. -/
def Neighbor.from_manufacture_data (data : List Nat) (now : Int) : Option Neighbor := do
  let identifier ← data[3]?
  let b4 ← data[4]?
  let pi_temp ← data[5]?
  let mode ← data[6]?
  let msg ← data[7]?
  let dest ← data[8]?
  pure { timestamp := toString now
         rssi := 0
         mac := ""
         manufacturer_id := 0
         identifier := identifier
         state := ((b4 >>> 7) &&& 1) != 0
         rest := b4 &&& 127
         pi_temp := pi_temp
         mode := Modes.from_u8 mode
         msg := msg
         dest := dest }

/-- Unpacking the byte `(state<<7)|rest` recovers state (top bit) and
rest (low seven bits) when `rest < 128`. -/
lemma pack_byte_bits : ∀ (st : Bool), ∀ r < 128,
    ((((cond st 1 0) * 128 + r) >>> 7) % 2 == 1) = st ∧
      ((cond st 1 0) * 128 + r) &&& 127 = r := by
  decide

/-- Claim C1: for every payload of length at least 9, decode sets
`identifier` from byte 3, derives `state` as the top bit and `rest` as the
low seven bits of byte 4, and sets `pi_temp`, `mode` (through
`Modes.from_u8`), `msg`, `dest` from bytes 5-8; moreover for every
`state` and every `rest` in `[0,127]`, decoding byte `(state<<7)|rest` at
offset 4 recovers exactly that pair. -/
theorem C1_decode_layout (data : List Nat) (now : Int) (h : 9 ≤ data.length) :
    Neighbor.from_manufacture_data data now = some
      { timestamp := toString now
        rssi := 0
        mac := ""
        manufacturer_id := 0
        identifier := data.getD 3 0
        state := ((data.getD 4 0 >>> 7) &&& 1) != 0
        rest := data.getD 4 0 &&& 127
        pi_temp := data.getD 5 0
        mode := Modes.from_u8 (data.getD 6 0)
        msg := data.getD 7 0
        dest := data.getD 8 0 } ∧
    ∀ (st : Bool) (r : Nat), r < 128 → ∀ x0 x1 x2 idv p mo ms de : Nat,
      Neighbor.from_manufacture_data
          [x0, x1, x2, idv, (cond st 1 0) * 128 + r, p, mo, ms, de] now = some
        { timestamp := toString now
          rssi := 0
          mac := ""
          manufacturer_id := 0
          identifier := idv
          state := st
          rest := r
          pi_temp := p
          mode := Modes.from_u8 mo
          msg := ms
          dest := de } := by
  constructor
  · match data with
    | a0 :: a1 :: a2 :: a3 :: a4 :: a5 :: a6 :: a7 :: a8 :: tl =>
      simp [Neighbor.from_manufacture_data]
  · intro st r hr x0 x1 x2 idv p mo ms de
    simp [Neighbor.from_manufacture_data, (pack_byte_bits st r hr).1,
      (pack_byte_bits st r hr).2]

/-- Witness for C1 at a concrete 9-byte payload. -/
theorem C1_decode_layout_witness :
    Neighbor.from_manufacture_data [0, 0, 0, 7, 200, 30, 2, 5, 9] 42 = some
      { timestamp := "42"
        rssi := 0
        mac := ""
        manufacturer_id := 0
        identifier := 7
        state := true
        rest := 72
        pi_temp := 30
        mode := Modes.from_u8 2
        msg := 5
        dest := 9 } :=
  (C1_decode_layout [0, 0, 0, 7, 200, 30, 2, 5, 9] 42 (by decide)).1

/-- Uppercase hexadecimal digit character, as produced by Rust
`format!("\x7b:02X\x7d")`. -/
def hexDigitChar (n : Nat) : Char :=
  if n < 10 then Char.ofNat (48 + n) else Char.ofNat (55 + n)

/-- Structural worker for `hexDigits`; `fuel ≥ n` suffices since the
argument shrinks by division by 16. -/
def hexDigitsGo (fuel n : Nat) : List Char :=
  match fuel with
  | 0 => [hexDigitChar (n % 16)]
  | fuel + 1 =>
    if n < 16 then [hexDigitChar n]
    else hexDigitsGo fuel (n / 16) ++ [hexDigitChar (n % 16)]

/-- Uppercase hexadecimal digits of `n`, most significant first. -/
def hexDigits (n : Nat) : List Char :=
  hexDigitsGo n n

/-- Rust `format!("\x7b:02X\x7d", x)`: uppercase hex, zero-padded to width
two. -/
def hex2 (n : Nat) : String :=
  let ds := hexDigits n
  String.mk (if ds.length < 2 then '0' :: ds else ds)

/-- The fixed hcitool argument header emitted by `BleBroadCastInner::cast`
(com.rs lines 160-162): adapter selection, HCI set-advertising-data
opcode, total length 0x1E, flags AD element `02 01 06`, manufacturer
-specific AD element header `1A FF` and company id `FF FF`. -/
def castHeader : List String :=
  ["-i", "hci0", "cmd", "0x08", "0x0008", "1E", "02", "01", "06", "1A",
   "FF", "FF", "FF"]

/-- `BleBroadCastInner::cast` (com.rs lines 150-173): the full token list
passed to hcitool — the fixed header, then the identifier and every data
byte rendered as two-digit uppercase hexadecimal tokens. -/
def BleBroadCastInner.cast (identifier : Nat) (data : List Nat) : List String :=
  castHeader ++ (hex2 identifier :: data.map hex2)

/-- Modelled from the spec: value of one hexadecimal character (the
radio transport that turns cast's hex tokens back into payload bytes is
not part of this repository's source). -/
def hexCharVal (c : Char) : Nat :=
  if c.toNat ≥ 65 then c.toNat - 55 else c.toNat - 48

/-- Modelled from the spec: a two-digit uppercase hexadecimal token read
back as the payload byte it denotes. -/
def hexTokenToByte (s : String) : Nat :=
  s.data.foldl (fun a c => a * 16 + hexCharVal c) 0

/-- Modelled from the spec: the advertisement transport. Each payload
token written by `cast` becomes one broadcast byte, and the discovery
side (btleplug) exposes the manufacturer data as a 3-byte 0xFF framing
prefix followed by those bytes ("the first 3 bytes of the data acquired
by btleplug are filled with FF"). -/
def advertisementBytes (tokens : List String) : List Nat :=
  [255, 255, 255] ++ tokens.map hexTokenToByte

set_option maxRecDepth 4096 in
/-- Reading back the two-digit uppercase hex rendering of a byte yields
the byte. -/
lemma hexTokenToByte_hex2 : ∀ b < 256, hexTokenToByte (hex2 b) = b := by
  decide

/-- Claim C2: composing `cast`'s encoding (the tokens after its fixed
advertising header) with the transport and `from_manufacture_data`
round-trips identifier, state, rest, pi_temp, mode, msg and dest exactly;
rssi, mac, manufacturer_id and timestamp come out as the codec defaults
(0, "", 0, the decode-time clock), not from the encoded payload. -/
theorem C2_cast_decode_roundtrip (idv : Nat) (st : Bool) (r t mo ms de : Nat)
    (now : Int) (hid : idv < 256) (hr : r < 128) (ht : t < 256)
    (hmo : mo < 256) (hms : ms < 256) (hde : de < 256) :
    Neighbor.from_manufacture_data
        (advertisementBytes
          ((BleBroadCastInner.cast idv
              [(cond st 1 0) * 128 + r, t, mo, ms, de]).drop
            castHeader.length)) now = some
      { timestamp := toString now
        rssi := 0
        mac := ""
        manufacturer_id := 0
        identifier := idv
        state := st
        rest := r
        pi_temp := t
        mode := Modes.from_u8 mo
        msg := ms
        dest := de } := by
  have hb : (cond st 1 0) * 128 + r < 256 := by
    cases st <;> simp only [cond] <;> omega
  have hdrop :
      (BleBroadCastInner.cast idv
          [(cond st 1 0) * 128 + r, t, mo, ms, de]).drop castHeader.length =
        [hex2 idv, hex2 ((cond st 1 0) * 128 + r), hex2 t, hex2 mo,
         hex2 ms, hex2 de] := by
    simp [BleBroadCastInner.cast, List.drop_left]
  rw [hdrop]
  simp only [advertisementBytes, List.map]
  rw [hexTokenToByte_hex2 idv hid, hexTokenToByte_hex2 _ hb,
    hexTokenToByte_hex2 t ht, hexTokenToByte_hex2 mo hmo,
    hexTokenToByte_hex2 ms hms, hexTokenToByte_hex2 de hde]
  simp [Neighbor.from_manufacture_data, (pack_byte_bits st r hr).1,
    (pack_byte_bits st r hr).2]

/-- Witness for C2 at a concrete identifier and 5-byte body. -/
theorem C2_cast_decode_roundtrip_witness :
    Neighbor.from_manufacture_data
        (advertisementBytes
          ((BleBroadCastInner.cast 1
              [(cond true 1 0) * 128 + 5, 2, 3, 4, 6]).drop
            castHeader.length)) 0 = some
      { timestamp := toString (0 : Int)
        rssi := 0
        mac := ""
        manufacturer_id := 0
        identifier := 1
        state := true
        rest := 5
        pi_temp := 2
        mode := Modes.from_u8 3
        msg := 4
        dest := 6 } :=
  C2_cast_decode_roundtrip 1 true 5 2 3 4 6 0 (by decide) (by decide)
    (by decide) (by decide) (by decide) (by decide)

/-- Whether `pat` is an initial segment of `s` (character-wise). -/
def charsStartWith : List Char → List Char → Bool
  | [], _ => true
  | _ :: _, [] => false
  | p :: ps, c :: cs => p == c && charsStartWith ps cs

/-- Structural worker for `replaceAll`: leftmost non-overlapping
occurrences of `pat` in `s` become `rep`, the Rust `str::replace`
semantics. `fuel ≥ s.length` suffices for a non-empty pattern. -/
def replaceAllGo (pat rep : List Char) : Nat → List Char → List Char
  | 0, s => s
  | fuel + 1, s =>
    match s with
    | [] => []
    | c :: rest =>
      if charsStartWith pat (c :: rest) then
        rep ++ replaceAllGo pat rep fuel ((c :: rest).drop pat.length)
      else c :: replaceAllGo pat rep fuel rest

/-- Rust `str::replace(pat, rep)` on character lists. -/
def replaceAll (pat rep s : List Char) : List Char :=
  replaceAllGo pat rep s.length s

/-- The literal prefix stripped by the discovery worker (com.rs line 87):
`mac_addr.replace("hci0/dev_", "")`. -/
def devPrefixChars : List Char := "hci0/dev_".data

/-- MAC normalization in `BleBroadCast::listen` (com.rs lines 86-88): the
identity string has every occurrence of the literal `"hci0/dev_"` removed,
then every underscore replaced by a colon. -/
def normalizeMac (s : String) : String :=
  String.mk
    ((replaceAll devPrefixChars [] s.data).map
      fun c => if c = '_' then ':' else c)

/-- Per-event processing of a manufacturer-data advertisement in
`BleBroadCast::listen` (com.rs lines 72-101): only when the declared
company id equals 65535 is the payload decoded, the normalized MAC and
the company id written into the record, and the result sent on the
channel; the returned value is the Neighbor sent (`none` when nothing is
sent, or when decode panics). -/
def BleBroadCast.processEvent (manufacturer_id : Nat) (data : List Nat)
    (idString : String) (now : Int) : Option Neighbor :=
  if manufacturer_id = 65535 then
    (Neighbor.from_manufacture_data data now).map fun n =>
      { n with mac := normalizeMac idString, manufacturer_id := manufacturer_id }
  else
    none

/-- Claim C5 (code evaluated at the failing inputs): for every payload
shorter than 9 bytes, `from_manufacture_data` hits an out-of-bounds
index and panics (`none` in this embedding) — there is no MalformedPayload
error value, since the Rust function returns `Self`, not a `Result`. -/
theorem C5_short_payload_panics (data : List Nat) (now : Int)
    (h : data.length < 9) :
    Neighbor.from_manufacture_data data now = none := by
  match data with
  | [] => rfl
  | [_] => rfl
  | [_, _] => rfl
  | [_, _, _] => rfl
  | [_, _, _, _] => rfl
  | [_, _, _, _, _] => rfl
  | [_, _, _, _, _, _] => rfl
  | [_, _, _, _, _, _, _] => rfl
  | [_, _, _, _, _, _, _, _] => rfl
  | _ :: _ :: _ :: _ :: _ :: _ :: _ :: _ :: _ :: _ =>
    simp at h
    omega

/-- Witness for C5 at the 8-byte payload. -/
theorem C5_short_payload_panics_witness :
    Neighbor.from_manufacture_data [0, 0, 0, 0, 0, 0, 0, 0] 0 = none :=
  C5_short_payload_panics [0, 0, 0, 0, 0, 0, 0, 0] 0 (by decide)

/-- Claim C6: the discovery worker forwards a Neighbor only for company
id 65535; an event with any other declared company id is never forwarded,
regardless of payload. -/
theorem C6_company_id_filter (manufacturer_id : Nat) (data : List Nat)
    (idString : String) (now : Int) (h : manufacturer_id ≠ 65535) :
    BleBroadCast.processEvent manufacturer_id data idString now = none := by
  simp [BleBroadCast.processEvent, h]

/-- Witness for C6 at a concrete foreign company id with a well-formed
payload. -/
theorem C6_company_id_filter_witness :
    BleBroadCast.processEvent 76 [0, 0, 0, 1, 2, 3, 4, 5, 6] "x" 0 = none :=
  C6_company_id_filter 76 [0, 0, 0, 1, 2, 3, 4, 5, 6] "x" 0 (by decide)

/-- A pattern is an initial segment of itself followed by anything. -/
lemma charsStartWith_append (p s : List Char) :
    charsStartWith p (p ++ s) = true := by
  induction p with
  | nil => rfl
  | cons c cs ih => simp [charsStartWith, ih]

/-- The `"hci0/dev_"` pattern cannot match inside a slash-free string. -/
lemma devPrefix_no_match (s : List Char) (h : '/' ∉ s) :
    charsStartWith devPrefixChars s = false := by
  match s with
  | [] => rfl
  | [a] => simp [devPrefixChars, charsStartWith]
  | [a, b] => simp [devPrefixChars, charsStartWith]
  | [a, b, c] => simp [devPrefixChars, charsStartWith]
  | [a, b, c, d] => simp [devPrefixChars, charsStartWith]
  | a :: b :: c :: d :: e :: tl =>
    by_cases hc : e = '/'
    · exact absurd (by simp [hc]) h
    · have h5 : ('/' == e) = false := by
        rw [beq_eq_false_iff_ne]
        exact fun hh => hc hh.symm
      simp [devPrefixChars, charsStartWith, h5]

/-- Stripping leaves a slash-free string untouched at any fuel. -/
lemma replaceAllGo_no_slash (rep : List Char) (fuel : Nat) (s : List Char)
    (h : '/' ∉ s) :
    replaceAllGo devPrefixChars rep fuel s = s := by
  induction fuel generalizing s with
  | zero => rfl
  | succ fuel ih =>
    match s with
    | [] => rfl
    | c :: rest =>
      rw [replaceAllGo, devPrefix_no_match (c :: rest) h]
      simp only [Bool.false_eq_true, if_false]
      rw [ih rest (fun hm => h (List.mem_cons_of_mem c hm))]

/-- `replace("hci0/dev_", "")` on `"hci0/dev_" ++ s` yields `s` when `s`
contains no slash. -/
lemma replaceAll_strip_devPrefix (s : List Char) (h : '/' ∉ s) :
    replaceAll devPrefixChars [] (devPrefixChars ++ s) = s := by
  have hlen : (devPrefixChars ++ s).length = (8 + s.length) + 1 := by
    simp [devPrefixChars]
    omega
  rw [replaceAll, hlen]
  have hlist : devPrefixChars ++ s =
      'h' :: 'c' :: 'i' :: '0' :: '/' :: 'd' :: 'e' :: 'v' :: '_' :: s := rfl
  rw [hlist]
  simp only [replaceAllGo]
  have hcond : charsStartWith devPrefixChars
      ('h' :: 'c' :: 'i' :: '0' :: '/' :: 'd' :: 'e' :: 'v' :: '_' :: s) = true := by
    rw [← hlist]
    exact charsStartWith_append devPrefixChars s
  rw [hcond]
  simp only [if_true]
  have hdrop : ('h' :: 'c' :: 'i' :: '0' :: '/' :: 'd' :: 'e' :: 'v' :: '_'
      :: s).drop devPrefixChars.length = s := by
    rw [← hlist]
    exact List.drop_left devPrefixChars s
  rw [hdrop, replaceAllGo_no_slash [] _ s h]
  rfl

/-- Counterexample to claim C7: for adapter prefix `hci1` the code strips
nothing (the replaced literal is exactly `"hci0/dev_"`), so the
normalized string is not the bare MAC. -/
theorem C7_counterexample_hci1 :
    normalizeMac "hci1/dev_AA_BB_CC_DD_EE_FF" = "hci1/dev:AA:BB:CC:DD:EE:FF" ∧
      normalizeMac "hci1/dev_AA_BB_CC_DD_EE_FF" ≠ "AA:BB:CC:DD:EE:FF" := by
  constructor
  · decide
  · decide

/-- Claim C7 as amended: the normalization strips the literal
`"hci0/dev_"` segment (only adapter `hci0`, not an arbitrary adapter
prefix) and replaces every underscore with a colon; for any slash-free
remainder `s`, `"hci0/dev_" ++ s` normalizes to `s` with underscores
turned into colons. -/
theorem C7_mac_normalization (s : List Char) (h : '/' ∉ s) :
    normalizeMac (String.mk ("hci0/dev_".data ++ s)) =
      String.mk (s.map fun c => if c = '_' then ':' else c) := by
  have hs : (String.mk ("hci0/dev_".data ++ s)).data = devPrefixChars ++ s := rfl
  rw [normalizeMac, hs, replaceAll_strip_devPrefix s h]

/-- Witness for C7 at the concrete six-octet identity string: exactly the
five separating underscores become colons. -/
theorem C7_mac_normalization_witness :
    normalizeMac "hci0/dev_AA_BB_CC_DD_EE_FF" = "AA:BB:CC:DD:EE:FF" := by
  have h := C7_mac_normalization ("AA_BB_CC_DD_EE_FF".data) (by decide)
  exact h

/-- Counterexample to claim C8: decoding the same payload at two
different clock instants yields two different `timestamp` fields, so
`timestamp` is set by decode itself (to the capture clock), not left to
the discovery layer. -/
theorem C8_counterexample_timestamp :
    (Neighbor.from_manufacture_data [0, 0, 0, 1, 2, 3, 4, 5, 6] 5).map
        Neighbor.timestamp = some "5" ∧
      (Neighbor.from_manufacture_data [0, 0, 0, 1, 2, 3, 4, 5, 6] 7).map
        Neighbor.timestamp = some "7" ∧
      (BleBroadCast.processEvent 65535 [0, 0, 0, 1, 2, 3, 4, 5, 6] "m" 5).map
        Neighbor.rssi = some 0 := by
  refine ⟨by decide, by decide, ?_⟩
  decide

/-- Claim C8 as amended: decode derives none of `mac`,
`manufacturer_id`, `rssi` from the payload — they are set to the fixed
defaults `""`, `0`, `0` — while `timestamp` is set by decode to the
capture clock; the discovery layer then fills `mac` and
`manufacturer_id`, leaving `rssi` at 0 and `timestamp` as decode made
it. -/
theorem C8_codec_defaults (data : List Nat) (idString : String) (now : Int) :
    (∀ n : Neighbor, Neighbor.from_manufacture_data data now = some n →
      n.mac = "" ∧ n.manufacturer_id = 0 ∧ n.rssi = 0 ∧
        n.timestamp = toString now) ∧
    (∀ m : Neighbor,
      BleBroadCast.processEvent 65535 data idString now = some m →
        m.mac = normalizeMac idString ∧ m.manufacturer_id = 65535 ∧
          m.rssi = 0 ∧ m.timestamp = toString now) := by
  have hdec : ∀ n : Neighbor,
      Neighbor.from_manufacture_data data now = some n →
        n.mac = "" ∧ n.manufacturer_id = 0 ∧ n.rssi = 0 ∧
          n.timestamp = toString now := by
    intro n hn
    by_cases hlen : 9 ≤ data.length
    · have h1 := (C1_decode_layout data now hlen).1
      rw [h1] at hn
      cases hn
      exact ⟨rfl, rfl, rfl, rfl⟩
    · rw [C5_short_payload_panics data now (by omega)] at hn
      cases hn
  refine ⟨hdec, ?_⟩
  intro m hm
  rw [BleBroadCast.processEvent, if_pos rfl] at hm
  cases hdecm : Neighbor.from_manufacture_data data now with
  | none =>
    rw [hdecm] at hm
    cases hm
  | some n =>
    rw [hdecm] at hm
    rw [Option.map_some'] at hm
    cases hm
    have h := hdec n hdecm
    exact ⟨rfl, rfl, h.2.2.1, h.2.2.2⟩

/-- Witness for C8 (amended) at a concrete payload and identity string. -/
theorem C8_codec_defaults_witness :
    (Neighbor.from_manufacture_data [0, 0, 0, 1, 2, 3, 4, 5, 6] 9 =
        some { timestamp := "9", rssi := 0, mac := "", manufacturer_id := 0,
               identifier := 1, state := false, rest := 2, pi_temp := 3,
               mode := Modes.from_u8 4, msg := 5, dest := 6 }) ∧
      ({ timestamp := "9", rssi := 0, mac := "", manufacturer_id := 0,
         identifier := 1, state := false, rest := 2, pi_temp := 3,
         mode := Modes.from_u8 4, msg := 5, dest := 6 : Neighbor }.mac = "" ∧
       ({ timestamp := "9", rssi := 0, mac := "", manufacturer_id := 0,
          identifier := 1, state := false, rest := 2, pi_temp := 3,
          mode := Modes.from_u8 4, msg := 5, dest := 6 : Neighbor
          }.manufacturer_id = 0) ∧
       ({ timestamp := "9", rssi := 0, mac := "", manufacturer_id := 0,
          identifier := 1, state := false, rest := 2, pi_temp := 3,
          mode := Modes.from_u8 4, msg := 5, dest := 6 : Neighbor }.rssi = 0) ∧
       ({ timestamp := "9", rssi := 0, mac := "", manufacturer_id := 0,
          identifier := 1, state := false, rest := 2, pi_temp := 3,
          mode := Modes.from_u8 4, msg := 5, dest := 6 : Neighbor
          }.timestamp = toString (9 : Int))) :=
  ⟨by decide,
   (C8_codec_defaults [0, 0, 0, 1, 2, 3, 4, 5, 6] "m" 9).1 _ (by decide)⟩

/-- Child-to-parent message vocabulary (com.rs lines 227-246). -/
inductive ChildMsg
  | Halt
  | Bumped
  | PersonFoundPause
  | ReachTarget
  | TargetLost
  | NewTargetFound
  | FromCwToCcw
  | PiTempHighHalt
  | MissionComplete
  | TargetNotFound
  | LeaderWaiting
  | TarailerPrepaired
  | ClimbUp
  | ClimbDown
  | Ack
  | PersonFoundWarn
  | AnimalFound
  | Unknown
deriving DecidableEq, Repr

/-- `ChildMsg::from_u8` (com.rs lines 251-272): ids 0-16 are mapped, all
other byte values fall to `Unknown`. -/
def ChildMsg.from_u8 (i : Nat) : ChildMsg :=
  match i with
  | 0 => ChildMsg.Halt
  | 1 => ChildMsg.Bumped
  | 2 => ChildMsg.PersonFoundPause
  | 3 => ChildMsg.ReachTarget
  | 4 => ChildMsg.TargetLost
  | 5 => ChildMsg.NewTargetFound
  | 6 => ChildMsg.FromCwToCcw
  | 7 => ChildMsg.PiTempHighHalt
  | 8 => ChildMsg.MissionComplete
  | 9 => ChildMsg.TargetNotFound
  | 10 => ChildMsg.LeaderWaiting
  | 11 => ChildMsg.TarailerPrepaired
  | 12 => ChildMsg.ClimbUp
  | 13 => ChildMsg.ClimbDown
  | 14 => ChildMsg.Ack
  | 15 => ChildMsg.PersonFoundWarn
  | 16 => ChildMsg.AnimalFound
  | _ => ChildMsg.Unknown

/-- `ChildMsg::to_u8` (com.rs lines 276-297): each named variant maps to
its id; the catch-all (here only `Unknown`) maps to 255. -/
def ChildMsg.to_u8 (msg : ChildMsg) : Nat :=
  match msg with
  | ChildMsg.Halt => 0
  | ChildMsg.Bumped => 1
  | ChildMsg.PersonFoundPause => 2
  | ChildMsg.ReachTarget => 3
  | ChildMsg.TargetLost => 4
  | ChildMsg.NewTargetFound => 5
  | ChildMsg.FromCwToCcw => 6
  | ChildMsg.PiTempHighHalt => 7
  | ChildMsg.MissionComplete => 8
  | ChildMsg.TargetNotFound => 9
  | ChildMsg.LeaderWaiting => 10
  | ChildMsg.TarailerPrepaired => 11
  | ChildMsg.ClimbUp => 12
  | ChildMsg.ClimbDown => 13
  | ChildMsg.Ack => 14
  | ChildMsg.PersonFoundWarn => 15
  | ChildMsg.AnimalFound => 16
  | ChildMsg.Unknown => 255

/-- Parent-to-child message vocabulary (com.rs lines 302-320). -/
inductive ParentMsg
  | Off
  | On
  | Reset
  | Stop
  | Forward
  | Backward
  | Left
  | Right
  | Fill
  | Oneway
  | Climb
  | Around
  | MonitorPerson
  | MonitorAnimal
  | RoundTrip
  | FollowPerson
  | Unknown
deriving DecidableEq, Repr

/-- `ParentMsg::from_u8` (com.rs lines 325-345): sparse ids 0-7 and
10-17 are mapped (8 and 9 are skipped), all other byte values fall to
`Unknown`. -/
def ParentMsg.from_u8 (i : Nat) : ParentMsg :=
  match i with
  | 0 => ParentMsg.Off
  | 1 => ParentMsg.On
  | 2 => ParentMsg.Reset
  | 3 => ParentMsg.Stop
  | 4 => ParentMsg.Forward
  | 5 => ParentMsg.Backward
  | 6 => ParentMsg.Left
  | 7 => ParentMsg.Right
  | 10 => ParentMsg.Fill
  | 11 => ParentMsg.Oneway
  | 12 => ParentMsg.Climb
  | 13 => ParentMsg.Around
  | 14 => ParentMsg.MonitorPerson
  | 15 => ParentMsg.MonitorAnimal
  | 16 => ParentMsg.RoundTrip
  | 17 => ParentMsg.FollowPerson
  | _ => ParentMsg.Unknown

/-- Modelled from the spec: `ParentMsg::to_u8` is not present in the
source (com.rs defines only `ParentMsg::from_u8`; `to_u8` exists only for
`ChildMsg`). Per the spec, "to_u8 is defined for every named variant and
maps Unknown (or any unmapped variant) to sentinel value 255" and "for
every explicitly mapped variant, to_u8(from_u8(i)) == i", so each named
variant maps back to its sparse id and `Unknown` to 255. -/
def ParentMsg.to_u8 (msg : ParentMsg) : Nat :=
  match msg with
  | ParentMsg.Off => 0
  | ParentMsg.On => 1
  | ParentMsg.Reset => 2
  | ParentMsg.Stop => 3
  | ParentMsg.Forward => 4
  | ParentMsg.Backward => 5
  | ParentMsg.Left => 6
  | ParentMsg.Right => 7
  | ParentMsg.Fill => 10
  | ParentMsg.Oneway => 11
  | ParentMsg.Climb => 12
  | ParentMsg.Around => 13
  | ParentMsg.MonitorPerson => 14
  | ParentMsg.MonitorAnimal => 15
  | ParentMsg.RoundTrip => 16
  | ParentMsg.FollowPerson => 17
  | ParentMsg.Unknown => 255

set_option maxRecDepth 4096 in
/-- Claim C9: both vocabularies decode every byte value (unmapped codes
to `Unknown`), encode every named variant, round-trip every explicitly
mapped id, and encode `Unknown` as the sentinel 255. ChildMsg's mapped
ids are 0-16; ParentMsg's are the sparse set 0-7 and 10-17
(`ParentMsg.to_u8` is modelled from the spec — see its doc comment). -/
theorem C9_msg_vocabularies :
    (∀ i < 256, i ≤ 16 → ChildMsg.to_u8 (ChildMsg.from_u8 i) = i) ∧
    (∀ i < 256, 16 < i → ChildMsg.from_u8 i = ChildMsg.Unknown) ∧
    ChildMsg.to_u8 ChildMsg.Unknown = 255 ∧
    (∀ i < 256, i ≤ 7 ∨ (10 ≤ i ∧ i ≤ 17) →
      ParentMsg.to_u8 (ParentMsg.from_u8 i) = i) ∧
    (∀ i < 256, ¬(i ≤ 7 ∨ (10 ≤ i ∧ i ≤ 17)) →
      ParentMsg.from_u8 i = ParentMsg.Unknown) ∧
    ParentMsg.to_u8 ParentMsg.Unknown = 255 := by
  refine ⟨?_, ?_, rfl, ?_, ?_, rfl⟩ <;> decide

/-- Witness for C9 at concrete mapped and unmapped ids of both
vocabularies. -/
theorem C9_msg_vocabularies_witness :
    ChildMsg.to_u8 (ChildMsg.from_u8 16) = 16 ∧
      ChildMsg.from_u8 200 = ChildMsg.Unknown ∧
      ParentMsg.to_u8 (ParentMsg.from_u8 17) = 17 ∧
      ParentMsg.from_u8 8 = ParentMsg.Unknown :=
  ⟨C9_msg_vocabularies.1 16 (by decide) (by decide),
   C9_msg_vocabularies.2.1 200 (by decide) (by decide),
   C9_msg_vocabularies.2.2.2.1 17 (by decide) (by decide),
   C9_msg_vocabularies.2.2.2.2.1 8 (by decide) (by decide)⟩

/-- Own-state entity consumed by the safety gate: the boolean system
-enabled flag (`state.state`) and the temperature reading
(`state.pi_temp`, embedded as a rational). -/
structure RoktrackState where
  state : Bool
  pi_temp : ℚ
deriving DecidableEq

/-- `SystemRisk` (monitor_person.rs lines 82-85). -/
inductive SystemRisk
  | StateOff
  | HighTemp
deriving DecidableEq, Repr

/-- Observable actuator commands issued during one `handle` tick, in
issue order: `base::stop`, `speak(tag)`, and the external image
notification `send_line_notify_with_image(msg, ..)`. -/
inductive DeviceEffect
  | stop
  | speak (tag : String)
  | notify (msg : String)
deriving DecidableEq, Repr

/-- Modelled from the spec: a vision detection, carrying the class id the
detector assigned ("a detection set with a class-filter predicate" — the
detector subsystem is external to this core). -/
structure Detection where
  cls : Nat
deriving DecidableEq, Repr

/-- Modelled from the spec: the PERSON class id of the external detector
(its numeric value is irrelevant to the claims, only its identity). -/
def RoktrackClasses.PERSON : Nat := 0

/-- Modelled from the spec: `RoktrackClasses::filter` keeps the
detections of the requested class. -/
def RoktrackClasses.filter (dets : List Detection) (cls : Nat) : List Detection :=
  dets.filter fun d => d.cls == cls

/-- `assess_system_risk` (monitor_person.rs lines 88-97): `StateOff` when
the enabled flag is off, otherwise `HighTemp` (with a "high_temp"
vocalization) when the temperature exceeds 70.0, otherwise no risk. The
second component lists the effects issued inside the assessment. -/
def assess_system_risk (state : RoktrackState) :
    Option SystemRisk × List DeviceEffect :=
  if !state.state then (some SystemRisk.StateOff, [])
  else if state.pi_temp > 70 then
    (some SystemRisk.HighTemp, [DeviceEffect.speak "high_temp"])
  else (none, [])

/-- Result of one `MonitorPerson::handle` tick: the effects issued, in
order, and the value of the private `last_detected_time` field after the
tick. -/
structure HandleResult where
  effects : List DeviceEffect
  last_detected_time : Nat
deriving DecidableEq, Repr

/-- `MonitorPerson::handle` (monitor_person.rs lines 35-76).
`last_detected_time` is the private field before the tick, `now` the
millisecond clock read inside the tick
(`chrono::Utc::now().timestamp_millis()`). On a risk the actuator is
stopped and the tick returns; otherwise, with a PERSON detection
present, a warning is vocalized every tick and the image notification is
sent — updating `last_detected_time` to `now` — exactly when
`last_detected_time + 60000 < now`. -/
def MonitorPerson.handle (last_detected_time : Nat) (state : RoktrackState)
    (detections : List Detection) (now : Nat) : HandleResult :=
  let sr := assess_system_risk state
  match sr.1 with
  | some _ =>
    { effects := sr.2 ++ [DeviceEffect.stop]
      last_detected_time := last_detected_time }
  | none =>
    if RoktrackClasses.filter detections RoktrackClasses.PERSON ≠ [] then
      if last_detected_time + 60000 < now then
        { effects := [DeviceEffect.speak "person_detecting_warn",
                      DeviceEffect.notify "Person detected."]
          last_detected_time := now }
      else
        { effects := [DeviceEffect.speak "person_detecting_warn"]
          last_detected_time := last_detected_time }
    else
      { effects := [], last_detected_time := last_detected_time }

/-- Claim C3: the safety gate of `MonitorPerson::handle` — enabled flag
off gives `StateOff` (stop, nothing else); enabled with temperature
strictly above 70.0 gives `HighTemp` ("high_temp" vocalization then
stop, nothing else); otherwise no risk and the behavior-specific body
runs (in particular, under a risk no person warning is vocalized even
with a PERSON detection present). -/
theorem C3_safety_gate (lt : Nat) (st : RoktrackState)
    (dets : List Detection) (now : Nat) :
    (st.state = false →
      assess_system_risk st = (some SystemRisk.StateOff, []) ∧
      MonitorPerson.handle lt st dets now =
        { effects := [DeviceEffect.stop], last_detected_time := lt }) ∧
    (st.state = true → st.pi_temp > 70 →
      assess_system_risk st =
        (some SystemRisk.HighTemp, [DeviceEffect.speak "high_temp"]) ∧
      MonitorPerson.handle lt st dets now =
        { effects := [DeviceEffect.speak "high_temp", DeviceEffect.stop]
          last_detected_time := lt }) ∧
    (st.state = true → ¬(st.pi_temp > 70) →
      assess_system_risk st = (none, []) ∧
      MonitorPerson.handle lt st dets now =
        (if RoktrackClasses.filter dets RoktrackClasses.PERSON ≠ [] then
          if lt + 60000 < now then
            { effects := [DeviceEffect.speak "person_detecting_warn",
                          DeviceEffect.notify "Person detected."]
              last_detected_time := now }
          else
            { effects := [DeviceEffect.speak "person_detecting_warn"]
              last_detected_time := lt }
        else { effects := [], last_detected_time := lt })) := by
  refine ⟨?_, ?_, ?_⟩
  · intro h
    have ha : assess_system_risk st = (some SystemRisk.StateOff, []) := by
      simp [assess_system_risk, h]
    exact ⟨ha, by simp [MonitorPerson.handle, ha]⟩
  · intro h1 h2
    have ha : assess_system_risk st =
        (some SystemRisk.HighTemp, [DeviceEffect.speak "high_temp"]) := by
      simp [assess_system_risk, h1, h2]
    exact ⟨ha, by simp [MonitorPerson.handle, ha]⟩
  · intro h1 h2
    have ha : assess_system_risk st = (none, []) := by
      simp [assess_system_risk, h1, h2]
    exact ⟨ha, by simp [MonitorPerson.handle, ha]⟩

/-- Witness for C3: the three spec scenarios at temperature 71.0, 69.9
and with the flag off. -/
theorem C3_safety_gate_witness :
    (MonitorPerson.handle 0 { state := false, pi_temp := 71 }
        [{ cls := RoktrackClasses.PERSON }] 70001 =
      { effects := [DeviceEffect.stop], last_detected_time := 0 }) ∧
    (MonitorPerson.handle 0 { state := true, pi_temp := 71 }
        [{ cls := RoktrackClasses.PERSON }] 70001 =
      { effects := [DeviceEffect.speak "high_temp", DeviceEffect.stop]
        last_detected_time := 0 }) ∧
    (MonitorPerson.handle 0 { state := true, pi_temp := (699 : ℚ) / 10 }
        [{ cls := RoktrackClasses.PERSON }] 70001 =
      { effects := [DeviceEffect.speak "person_detecting_warn",
                    DeviceEffect.notify "Person detected."]
        last_detected_time := 70001 }) := by
  refine ⟨?_, ?_, ?_⟩
  · exact ((C3_safety_gate 0 { state := false, pi_temp := 71 }
      [{ cls := RoktrackClasses.PERSON }] 70001).1 rfl).2
  · exact ((C3_safety_gate 0 { state := true, pi_temp := 71 }
      [{ cls := RoktrackClasses.PERSON }] 70001).2.1 rfl (by norm_num)).2
  · have h := ((C3_safety_gate 0 { state := true, pi_temp := (699 : ℚ) / 10 }
      [{ cls := RoktrackClasses.PERSON }] 70001).2.2 rfl (by norm_num)).2
    rw [h]
    decide

/-- Counterexample to claim C4: starting from `last_detected_time = 0`, a
PERSON detection at `now = 0` with the gate passing does NOT send the
image notification (`0 + 60000 < 0` is false); only the warning is
vocalized and the stored time is unchanged. -/
theorem C4_counterexample_now_zero :
    MonitorPerson.handle 0 { state := true, pi_temp := 69 }
        [{ cls := RoktrackClasses.PERSON }] 0 =
      { effects := [DeviceEffect.speak "person_detecting_warn"]
        last_detected_time := 0 } ∧
    DeviceEffect.notify "Person detected." ∉
      (MonitorPerson.handle 0 { state := true, pi_temp := 69 }
        [{ cls := RoktrackClasses.PERSON }] 0).effects := by
  constructor
  · decide
  · decide

/-- Claim C4 as amended: when the safety gate passes and a PERSON
detection is present, the actuator vocalizes the warning that tick, and
the external image notification is sent if and only if
`last_detected_time + 60000 < now` (strict), in which case
`last_detected_time` is set to `now`. In particular, from
`last_detected_time = 0`, detections at `now = 0`, `now = 59999` and
`now = 60000` do not notify, while a detection at `now = 60001`
notifies. -/
theorem C4_notification_throttle (lt : Nat) (st : RoktrackState)
    (dets : List Detection) (now : Nat) (hgate : st.state = true)
    (htemp : ¬(st.pi_temp > 70))
    (hperson : RoktrackClasses.filter dets RoktrackClasses.PERSON ≠ []) :
    DeviceEffect.speak "person_detecting_warn" ∈
      (MonitorPerson.handle lt st dets now).effects ∧
    (DeviceEffect.notify "Person detected." ∈
        (MonitorPerson.handle lt st dets now).effects ↔ lt + 60000 < now) ∧
    (MonitorPerson.handle lt st dets now).last_detected_time =
      (if lt + 60000 < now then now else lt) := by
  have hbody := ((C3_safety_gate lt st dets now).2.2 hgate htemp).2
  rw [if_pos hperson] at hbody
  by_cases htime : lt + 60000 < now
  · rw [if_pos htime] at hbody
    rw [hbody]
    simp [htime]
  · rw [if_neg htime] at hbody
    rw [hbody]
    simp [htime]

/-- Witness for C4 (amended) at the literal boundaries `now = 60000` (no
notification) and `now = 60001` (notification, time updated). -/
theorem C4_notification_throttle_witness :
    (DeviceEffect.notify "Person detected." ∈
        (MonitorPerson.handle 0 { state := true, pi_temp := 69 }
          [{ cls := RoktrackClasses.PERSON }] 60000).effects ↔
      (0 : Nat) + 60000 < 60000) ∧
    (DeviceEffect.notify "Person detected." ∈
        (MonitorPerson.handle 0 { state := true, pi_temp := 69 }
          [{ cls := RoktrackClasses.PERSON }] 60001).effects ↔
      (0 : Nat) + 60000 < 60001) ∧
    (MonitorPerson.handle 0 { state := true, pi_temp := 69 }
        [{ cls := RoktrackClasses.PERSON }] 60001).last_detected_time =
      (if (0 : Nat) + 60000 < 60001 then 60001 else 0) :=
  ⟨(C4_notification_throttle 0 { state := true, pi_temp := 69 }
      [{ cls := RoktrackClasses.PERSON }] 60000 rfl (by norm_num)
      (by decide)).2.1,
   (C4_notification_throttle 0 { state := true, pi_temp := 69 }
      [{ cls := RoktrackClasses.PERSON }] 60001 rfl (by norm_num)
      (by decide)).2.1,
   (C4_notification_throttle 0 { state := true, pi_temp := 69 }
      [{ cls := RoktrackClasses.PERSON }] 60001 rfl (by norm_num)
      (by decide)).2.2⟩

/-- Claim C10: across any `handle` invocation, `last_detected_time` is
either unchanged or set to `now`; it changes only when the gate passed, a
PERSON detection is present and `last_detected_time + 60000 < now` — the
same tick the notification is sent — and in every other tick it is
unchanged. -/
theorem C10_last_detected_time_frame (lt : Nat) (st : RoktrackState)
    (dets : List Detection) (now : Nat) :
    ((MonitorPerson.handle lt st dets now).last_detected_time = lt ∨
      (MonitorPerson.handle lt st dets now).last_detected_time = now) ∧
    (st.state = true ∧ ¬(st.pi_temp > 70) ∧
        RoktrackClasses.filter dets RoktrackClasses.PERSON ≠ [] ∧
        lt + 60000 < now →
      (MonitorPerson.handle lt st dets now).last_detected_time = now ∧
      DeviceEffect.notify "Person detected." ∈
        (MonitorPerson.handle lt st dets now).effects) ∧
    (¬(st.state = true ∧ ¬(st.pi_temp > 70) ∧
        RoktrackClasses.filter dets RoktrackClasses.PERSON ≠ [] ∧
        lt + 60000 < now) →
      (MonitorPerson.handle lt st dets now).last_detected_time = lt) := by
  by_cases h1 : st.state = true
  · by_cases h2 : st.pi_temp > 70
    · have hb := ((C3_safety_gate lt st dets now).2.1 h1 h2).2
      rw [hb]
      refine ⟨Or.inl rfl, ?_, fun _ => rfl⟩
      rintro ⟨-, hc, -, -⟩
      exact absurd h2 hc
    · have hb := ((C3_safety_gate lt st dets now).2.2 h1 h2).2
      by_cases h3 : RoktrackClasses.filter dets RoktrackClasses.PERSON ≠ []
      · rw [if_pos h3] at hb
        by_cases h4 : lt + 60000 < now
        · rw [if_pos h4] at hb
          rw [hb]
          exact ⟨Or.inr rfl, fun _ => ⟨rfl, by simp⟩,
            fun hc => absurd ⟨h1, h2, h3, h4⟩ hc⟩
        · rw [if_neg h4] at hb
          rw [hb]
          exact ⟨Or.inl rfl, fun hc => absurd hc.2.2.2 h4, fun _ => rfl⟩
      · rw [if_neg h3] at hb
        rw [hb]
        exact ⟨Or.inl rfl, fun hc => absurd hc.2.2.1 h3, fun _ => rfl⟩
  · have h0 : st.state = false := by
      cases hs : st.state
      · rfl
      · exact absurd hs h1
    have hb := ((C3_safety_gate lt st dets now).1 h0).2
    rw [hb]
    exact ⟨Or.inl rfl, fun hc => absurd hc.1 h1, fun _ => rfl⟩

/-- Witness for C10: a throttled tick leaves the stored time unchanged;
a notifying tick sets it to `now`. -/
theorem C10_last_detected_time_frame_witness :
    (MonitorPerson.handle 5 { state := true, pi_temp := 69 }
        [{ cls := RoktrackClasses.PERSON }] 60005).last_detected_time = 5 ∧
    (MonitorPerson.handle 5 { state := true, pi_temp := 69 }
        [{ cls := RoktrackClasses.PERSON }] 60006).last_detected_time =
      60006 :=
  ⟨(C10_last_detected_time_frame 5 { state := true, pi_temp := 69 }
      [{ cls := RoktrackClasses.PERSON }] 60005).2.2
      (fun hc => absurd hc.2.2.2 (by omega)),
   ((C10_last_detected_time_frame 5 { state := true, pi_temp := 69 }
      [{ cls := RoktrackClasses.PERSON }] 60006).2.1
      ⟨rfl, by norm_num, by decide, by omega⟩).1⟩
